import Mathlib

/-!
Verification of the Create2 tethered-drive repository's concurrency core.

This file embeds the two concurrency-relevant components of the repository:

* `createlib/custom_timer.py` — the `CustomTimer` class, a self-rearming
  fixed-rate timer built on `threading.Timer` and one `threading.Lock`.
  Its mutable attributes `interval`, `repeat`, `_timer`, `_stopped`,
  `next_call` become the fields of `TimerState`; the methods `start`,
  `stop`, `_run` and `__init__` become pure state transformers that take
  the current wall-clock time (`time.time()`) as an explicit argument.
  A pending `threading.Timer` handle is modelled by the absolute instant
  at which it is scheduled to fire (`timer : Option Rat`); `none` means
  no live handle.  All of `start`, `stop` and the rearm inside `_run`
  execute under the single lock, so an execution is an interleaving of
  these atomic state transformers.  Python truthiness of
  `if not self.next_call` makes a stored value of `0.0` behave like
  `None`; the embedding keeps that faithfully.

* `Create2_proj.py` — the `TetheredDriveApp` session: the `require_robot`
  guard, `handle_keypress` / `handle_keyrelease` dispatch, `_set_motion`
  (drive command composition with Python `int()` truncation toward zero,
  embedded as `pytrunc` over exact rationals), `toggle_sensor_polling`
  and `on_quit`.  Transport writes performed by a handler are recorded in
  `KeyOutcome.sent`; `raised` records an `AttributeError` escaping the
  handler (attribute access on `self.robot = None`), `errorReported`
  records the `require_robot` "Robot Not Connected!" dialog.
-/

namespace Create2

/-- State of a `CustomTimer` instance (`createlib/custom_timer.py`).
`timer` is the pending `threading.Timer` handle, modelled by its absolute
scheduled firing instant; `stopped` is `_stopped`; `next_call` is the
fixed-rate deadline attribute of the same name.  `repeats` embeds the
`repeat` attribute (renamed: `repeat` is reserved in Lean). -/
structure TimerState where
  interval : ℚ
  repeats : Bool
  timer : Option ℚ
  stopped : Bool
  next_call : Option ℚ
deriving DecidableEq

namespace TimerState

/-- `CustomTimer.start(self, from_run=False)` executed atomically (it holds
`self._lock`) at wall-clock time `now`.  The guard is `from_run or
self._stopped`.  `if not self.next_call` is Python truthiness: it takes the
first branch both when `next_call` is `None` and when it is `0.0`. -/
def start (s : TimerState) (now : ℚ) (from_run : Bool) : TimerState :=
  if from_run || s.stopped then
    let nc : ℚ :=
      match s.next_call with
      | none => now + s.interval
      | some t => if t = 0 then now + s.interval else t + s.interval
    let delay : ℚ := max 0 (nc - now)
    { s with next_call := some nc, timer := some (now + delay), stopped := false }
  else s

/-- `CustomTimer.stop(self)` executed atomically: cancels any pending
handle, marks the timer stopped and clears the deadline. -/
def stop (s : TimerState) : TimerState :=
  { s with timer := none, stopped := true, next_call := none }

/-- `CustomTimer._run(self)` at the instant `now` the pending handle fires:
the callback runs in a `try`, and the `finally` block rearms (repeat mode)
or stops (one-shot) regardless of whether the callback raised, so the state
transformation is the same for both values of `callbackRaised`. -/
def run (s : TimerState) (now : ℚ) (callbackRaised : Bool) : TimerState :=
  if s.repeats then start s now true else stop s

/-- `CustomTimer.__init__(self, interval, function, *args, autostart=True,
repeat=True, **kwargs)` at construction time `now`: fields are initialised
to `_timer = None`, `_stopped = True`, `next_call = None`, then `start()`
is called when `autostart` holds. -/
def init (interval : ℚ) (repeats : Bool) (autostart : Bool) (now : ℚ) : TimerState :=
  let s : TimerState :=
    { interval := interval, repeats := repeats, timer := none,
      stopped := true, next_call := none }
  if autostart then start s now false else s

/-- All deadlines stored in `next_call` are strictly positive.  Wall-clock
times from `time.time()` are strictly positive and the polling interval is
positive, so this holds of every state the program reaches; it rules out
the degenerate `next_call = 0.0` value that Python truthiness would treat
as absent. -/
def posInv (s : TimerState) : Prop :=
  ∀ d : ℚ, s.next_call = some d → 0 < d

end TimerState

/-- Python `int()` truncation toward zero, applied to an exact rational.
All quantities reaching `int()` in `_set_motion` (multiples of 200 and
halves of multiples of 300) are exactly representable as binary floats, so
the rational model agrees with the float computation. -/
def pytrunc (q : ℚ) : ℤ := if 0 ≤ q then ⌊q⌋ else -⌊-q⌋

/-- Constant `VELOCITYCHANGE = 200` of `Create2_proj.py`. -/
def VELOCITYCHANGE : ℤ := 200

/-- Constant `ROTATIONCHANGE = 300` of `Create2_proj.py`. -/
def ROTATIONCHANGE : ℤ := 300

/-- The keys dispatched by `handle_keypress` / `handle_keyrelease` after
`event.keysym.upper()`. -/
inductive Key
  | P | S | F | C | R | SPACE | B | O | UP | DOWN | LEFT | RIGHT | ESCAPE
deriving DecidableEq

/-- Transport operations a handler can perform on the robot channel. -/
inductive Cmd
  | modeStart | modeSafe | modeFull | clean | reset | getSensors
  | createSong | playSong
  | driveDirect (vl vr : ℤ)
deriving DecidableEq

/-- Observable outcome of one input event: whether an exception escaped the
handler, whether the `require_robot` error dialog was shown, and the
transport commands written to the channel, in order. -/
structure KeyOutcome where
  raised : Bool
  errorReported : Bool
  sent : List Cmd
deriving DecidableEq

/-- Session state of `TetheredDriveApp`: `connected` is `self.robot is not
None`, `velocity` / `rotation` are the motion attributes, `pollingActive`
is `sensor_polling_active`, `pollTimer` is `sensor_poll_timer`, and
`destroyed` records that `self.destroy()` ran. -/
structure AppState where
  connected : Bool
  velocity : ℤ
  rotation : ℤ
  pollingActive : Bool
  pollTimer : Option TimerState
  destroyed : Bool
deriving DecidableEq

namespace AppState

/-- `_set_motion(self, velocity=None, rotation=None)`, including its
`require_robot` decorator: with no robot it shows the error dialog and
returns; otherwise it commits the supplied axes and sends
`drive_direct(int(v - r/2), int(v + r/2))`. -/
def set_motion (app : AppState) (velocity rotation : Option ℤ) : AppState × KeyOutcome :=
  if !app.connected then (app, ⟨false, true, []⟩)
  else
    let v := velocity.getD app.velocity
    let r := rotation.getD app.rotation
    let vr := pytrunc ((v : ℚ) + (r : ℚ) / 2)
    let vl := pytrunc ((v : ℚ) - (r : ℚ) / 2)
    ({ app with velocity := v, rotation := r }, ⟨false, false, [Cmd.driveDirect vl vr]⟩)

/-- `toggle_sensor_polling(self)` with its `require_robot` decorator.
When active: the timer object is stopped and the reference dropped.  When
inactive: `CustomTimer(0.5, self.poll_sensors, False, repeat=True)` is
constructed, which autostarts (the `autostart=True` default). -/
def toggle_sensor_polling (app : AppState) (now : ℚ) : AppState × KeyOutcome :=
  if !app.connected then (app, ⟨false, true, []⟩)
  else if app.pollingActive then
    ({ app with pollTimer := none, pollingActive := false }, ⟨false, false, []⟩)
  else
    ({ app with
        pollTimer := some (TimerState.init (1/2) true true now),
        pollingActive := true }, ⟨false, false, []⟩)

/-- `on_quit(self)`: after the confirmation dialog it releases the robot
handle (`del self.robot`) and destroys the window.  It does not touch
`sensor_poll_timer` or `sensor_polling_active`. -/
def on_quit (app : AppState) (confirmed : Bool) : AppState :=
  if confirmed then { app with connected := false, destroyed := true } else app

/-- `handle_keypress(self, event)`.  The mode-key entries of `key_mapping`
(`P`, `S`, `F`, `C`, `R`, `B`) are plain lambdas that dereference
`self.robot` directly, so with no robot they raise `AttributeError`
(recorded in `raised`); `SPACE`, `O` and the arrow keys go through
`require_robot`-decorated methods, which report the error dialog instead.
`now` is the wall-clock time (used by the polling toggle) and
`confirmQuit` is the answer to the quit confirmation dialog. -/
def handle_keypress (app : AppState) (key : Key) (now : ℚ) (confirmQuit : Bool) :
    AppState × KeyOutcome :=
  match key with
  | .P => if app.connected then (app, ⟨false, false, [Cmd.modeStart]⟩) else (app, ⟨true, false, []⟩)
  | .S => if app.connected then (app, ⟨false, false, [Cmd.modeSafe]⟩) else (app, ⟨true, false, []⟩)
  | .F => if app.connected then (app, ⟨false, false, [Cmd.modeFull]⟩) else (app, ⟨true, false, []⟩)
  | .C => if app.connected then (app, ⟨false, false, [Cmd.clean]⟩) else (app, ⟨true, false, []⟩)
  | .R => if app.connected then (app, ⟨false, false, [Cmd.reset]⟩) else (app, ⟨true, false, []⟩)
  | .SPACE =>
      if !app.connected then (app, ⟨false, true, []⟩)
      else (app, ⟨false, false, [Cmd.createSong, Cmd.playSong]⟩)
  | .B => if app.connected then (app, ⟨false, false, [Cmd.getSensors]⟩) else (app, ⟨true, false, []⟩)
  | .O => toggle_sensor_polling app now
  | .UP => set_motion app (some VELOCITYCHANGE) none
  | .DOWN => set_motion app (some (-VELOCITYCHANGE)) none
  | .LEFT => set_motion app none (some ROTATIONCHANGE)
  | .RIGHT => set_motion app none (some (-ROTATIONCHANGE))
  | .ESCAPE => (on_quit app confirmQuit, ⟨false, false, []⟩)

/-- `handle_keyrelease(self, event)`: releasing a velocity key resets the
velocity axis, releasing a rotation key resets the rotation axis; other
keys do nothing. -/
def handle_keyrelease (app : AppState) (key : Key) : AppState × KeyOutcome :=
  match key with
  | .UP | .DOWN => set_motion app (some 0) none
  | .LEFT | .RIGHT => set_motion app none (some 0)
  | _ => (app, ⟨false, false, []⟩)

/-- The keys whose `key_mapping` entry goes through a `require_robot`-
decorated method (`_beep_song`, `toggle_sensor_polling`, `_set_motion`). -/
def guardedKey : Key → Bool
  | .SPACE | .O | .UP | .DOWN | .LEFT | .RIGHT => true
  | _ => false

end AppState

open TimerState AppState

/-- A repeat-mode timer whose pending handle is scheduled for t = 100, with
interval 10; the state of the poll timer just as its handle fires. -/
def sampleRepeatTimer : TimerState :=
  { interval := 10, repeats := true, timer := some 100,
    stopped := false, next_call := some 100 }

/-- A one-shot timer in the same position. -/
def sampleOneShotTimer : TimerState :=
  { interval := 10, repeats := false, timer := some 100,
    stopped := false, next_call := some 100 }

/-- A never-started timer (constructed with `autostart=False`). -/
def freshStoppedTimer : TimerState :=
  { interval := 10, repeats := true, timer := none,
    stopped := true, next_call := none }

/-- A connected session with both motion axes neutral. -/
def connectedApp0 : AppState :=
  { connected := true, velocity := 0, rotation := 0,
    pollingActive := false, pollTimer := none, destroyed := false }

/-- A session with no robot attached. -/
def disconnectedApp0 : AppState :=
  { connected := false, velocity := 0, rotation := 0,
    pollingActive := false, pollTimer := none, destroyed := false }

/-- The poll timer as created by `toggle_sensor_polling` at time 0. -/
def activePollTimer : TimerState := TimerState.init (1/2) true true 0

/-- A connected session with sensor polling active and its poll timer armed. -/
def pollingApp0 : AppState :=
  { connected := true, velocity := 0, rotation := 0,
    pollingActive := true, pollTimer := some activePollTimer, destroyed := false }

/-- `start` preserves positivity of stored deadlines when the interval and
the current time are positive. -/
lemma posInv_start (s : TimerState) (now : ℚ) (b : Bool)
    (hI : 0 < s.interval) (hnow : 0 < now) (h : s.posInv) :
    (start s now b).posInv := by
  intro d hd
  unfold start at hd
  split at hd
  · cases hnc : s.next_call with
    | none =>
        simp only [hnc] at hd
        obtain ⟨rfl⟩ : now + s.interval = d := by simpa using hd
        positivity
    | some t =>
        simp only [hnc] at hd
        by_cases ht : t = 0
        · simp only [ht, if_pos rfl] at hd
          obtain ⟨rfl⟩ : now + s.interval = d := by simpa using hd
          positivity
        · simp only [if_neg ht] at hd
          obtain ⟨rfl⟩ : t + s.interval = d := by simpa using hd
          have := h t hnc
          positivity
  · exact h d hd

/-- `stop` trivially preserves deadline positivity (it clears the deadline). -/
lemma posInv_stop (s : TimerState) : (stop s).posInv := by
  intro d hd
  simp [stop] at hd

/-- `_run` preserves deadline positivity. -/
lemma posInv_run (s : TimerState) (now : ℚ) (b : Bool)
    (hI : 0 < s.interval) (hnow : 0 < now) (h : s.posInv) :
    (run s now b).posInv := by
  unfold run
  split
  · exact posInv_start s now true hI hnow h
  · exact posInv_stop s

/-- `__init__` establishes deadline positivity. -/
lemma posInv_init (i : ℚ) (r a : Bool) (now : ℚ) (hI : 0 < i) (hnow : 0 < now) :
    (init i r a now).posInv := by
  unfold init
  split
  · refine posInv_start _ now false hI hnow ?_
    intro d hd
    simp at hd
  · intro d hd
    simp at hd

/-- Characterization of `pytrunc` as truncation toward zero: it floors
nonnegative arguments and ceils negative ones. -/
lemma pytrunc_toward_zero (q : ℚ) :
    (0 ≤ q → pytrunc q = ⌊q⌋) ∧ (q < 0 → pytrunc q = ⌈q⌉) := by
  constructor
  · intro h
    simp [pytrunc, h]
  · intro h
    have h' : ¬ (0 ≤ q) := not_le.mpr h
    simp [pytrunc, h', Int.floor_neg]

/-- Claim C1: in repeat mode, each firing computes the next deadline as
exactly the previous deadline plus the interval — never from the current
time — and arms the next firing for a delay of `max 0 (next_deadline -
now)`; only at the very first start, when no deadline is present, does the
deadline become start-time plus interval.  (`hd0` excludes the deadline
value `0`, which Python truthiness conflates with `None`; by `posInv_init`,
`posInv_start`, `posInv_run` and `posInv_stop`, every state reachable with
a positive interval and positive wall-clock times satisfies `posInv`, so
the hypothesis holds of every reachable deadline.) -/
theorem C1_fixed_rate_scheduling (s t : TimerState) (now now' d : ℚ) (b : Bool)
    (hrep : s.repeats = true) (hd : s.next_call = some d) (hd0 : d ≠ 0)
    (ht : t.next_call = none) (hts : t.stopped = true) :
    ((run s now b).next_call = some (d + s.interval)
      ∧ (run s now b).timer = some (now + max 0 (d + s.interval - now)))
    ∧ ((start t now' false).next_call = some (now' + t.interval)
      ∧ (start t now' false).timer = some (now' + max 0 (now' + t.interval - now'))) := by
  constructor
  · simp [run, start, hrep, hd, hd0]
  · simp [start, ht, hts]

/-- Witness for C1 at a concrete firing (deadline 100, interval 10, firing
observed at wall-clock 103) and a concrete first start at wall-clock 5. -/
theorem C1_fixed_rate_scheduling_witness :
    sampleRepeatTimer.repeats = true
    ∧ sampleRepeatTimer.next_call = some 100
    ∧ (100 : ℚ) ≠ 0
    ∧ freshStoppedTimer.next_call = none
    ∧ freshStoppedTimer.stopped = true
    ∧ (run sampleRepeatTimer 103 false).next_call = some 110
    ∧ (start freshStoppedTimer 5 false).next_call = some 15 := by
  have h := C1_fixed_rate_scheduling sampleRepeatTimer freshStoppedTimer 103 5 100 false
    rfl rfl (by norm_num) rfl rfl
  refine ⟨rfl, rfl, by norm_num, rfl, rfl, ?_, ?_⟩
  · have := h.1.1
    norm_num [sampleRepeatTimer] at this
    simpa [sampleRepeatTimer] using this
  · have := h.2.1
    norm_num [freshStoppedTimer] at this
    simpa [freshStoppedTimer] using this

/-- Claim C2 (code bug evidence): `stop()` does not guarantee that no new
firing is armed after it returns.  Concrete interleaving, serialized by the
single lock: the repeat-mode timer `sampleRepeatTimer` fires at t = 100 and
its callback returns; the external `stop()` then acquires the lock and
returns (state: stopped, no handle, no deadline); the firing's self-rearm
`start(from_run=True)` then acquires the lock at t = 102 — and, because
`from_run=True` bypasses the `_stopped` guard, it arms a fresh handle for
t = 112 and marks the timer running again. -/
theorem C2_stop_rearm_race :
    (stop sampleRepeatTimer).stopped = true
    ∧ (stop sampleRepeatTimer).timer = none
    ∧ (stop sampleRepeatTimer).next_call = none
    ∧ (start (stop sampleRepeatTimer) 102 true).stopped = false
    ∧ (start (stop sampleRepeatTimer) 102 true).timer = some 112
    ∧ (start (stop sampleRepeatTimer) 102 true).next_call = some 112 := by
  norm_num [start, stop, sampleRepeatTimer]

/-- Claim C3 counterexample: with no robot connected, the `P` (passive
mode) key is not rejected with a reported error — its `key_mapping` lambda
dereferences `self.robot` directly, so an `AttributeError` escapes the
handler and no error dialog is shown (no transport I/O happens either). -/
theorem C3_disconnected_counterexample :
    (handle_keypress disconnectedApp0 Key.P 0 false).2.raised = true
    ∧ (handle_keypress disconnectedApp0 Key.P 0 false).2.errorReported = false
    ∧ (handle_keypress disconnectedApp0 Key.P 0 false).2.sent = [] := by
  norm_num [handle_keypress, disconnectedApp0]

/-- Claim C3 as amended: while `Disconnected`, every key performs no
transport I/O and leaves the session state unchanged; the commands routed
through `require_robot`-guarded methods (beep, polling toggle, and every
motion-axis change) are rejected with a reported error and no exception,
while the unguarded mode commands (passive/safe/full/clean/reset/
sensor-dump) raise an `AttributeError` that escapes the handler instead of
reporting an error. -/
theorem C3_disconnected_amended (app : AppState) (now : ℚ) (cq : Bool) (key : Key)
    (h : app.connected = false) (hk : key ≠ Key.ESCAPE) :
    (handle_keypress app key now cq).1 = app
    ∧ (handle_keypress app key now cq).2.sent = []
    ∧ (handle_keypress app key now cq).2.errorReported = guardedKey key
    ∧ (handle_keypress app key now cq).2.raised = !(guardedKey key) := by
  cases key <;>
    simp_all [handle_keypress, set_motion, toggle_sensor_polling, guardedKey]

/-- Witness for the amended C3 at the beep key on a disconnected session. -/
theorem C3_disconnected_amended_witness :
    disconnectedApp0.connected = false
    ∧ Key.SPACE ≠ Key.ESCAPE
    ∧ (handle_keypress disconnectedApp0 Key.SPACE 0 false).1 = disconnectedApp0
    ∧ (handle_keypress disconnectedApp0 Key.SPACE 0 false).2.sent = [] := by
  have h := C3_disconnected_amended disconnectedApp0 0 false Key.SPACE rfl (by decide)
  exact ⟨rfl, by decide, h.1, h.2.1⟩

/-- Claim C4 (code bug evidence): quitting while sensor polling is active
releases the robot handle and destroys the window but leaves
`sensor_polling_active` set and the poll timer's pending handle armed
(here: scheduled for t = 1/2 and not stopped), so the next poll firing
runs against the released handle — the scheduler is not stopped before the
connection is released, and no in-flight poll is awaited. -/
theorem C4_quit_leaves_poller_armed :
    (on_quit pollingApp0 true).connected = false
    ∧ (on_quit pollingApp0 true).destroyed = true
    ∧ (on_quit pollingApp0 true).pollingActive = true
    ∧ (on_quit pollingApp0 true).pollTimer = some activePollTimer
    ∧ activePollTimer.stopped = false
    ∧ activePollTimer.timer = some (1/2) := by
  refine ⟨?_, ?_, ?_, ?_, ?_, ?_⟩ <;>
    norm_num [on_quit, pollingApp0, activePollTimer, TimerState.init, TimerState.start]

/-- Claim C5: a callback failure never changes the scheduler's state
transition — the `finally` block makes `_run` act identically whether or
not the callback raised — so in repeat mode the next firing is still armed
at the next fixed-rate deadline (previous deadline plus interval, a fresh
handle, not stopped), and in one-shot mode the timer still transitions
cleanly to stopped with no dangling handle and no deadline. -/
theorem C5_callback_failure_semantics (s : TimerState) (now d : ℚ)
    (hd : s.next_call = some d) (hd0 : d ≠ 0) :
    (∀ b₁ b₂ : Bool, run s now b₁ = run s now b₂)
    ∧ (s.repeats = true →
        (run s now true).next_call = some (d + s.interval)
        ∧ (run s now true).timer = some (now + max 0 (d + s.interval - now))
        ∧ (run s now true).stopped = false)
    ∧ (s.repeats = false →
        run s now true
          = { s with timer := none, stopped := true, next_call := none }) := by
  refine ⟨fun b₁ b₂ => rfl, fun hr => ?_, fun hr => ?_⟩
  · simp [run, start, hr, hd, hd0]
  · simp [run, stop, hr]

/-- Witness for C5: a failing firing of the repeat-mode timer at t = 103
still arms the next firing for deadline 110, and a failing one-shot firing
stops cleanly. -/
theorem C5_callback_failure_semantics_witness :
    sampleRepeatTimer.next_call = some 100
    ∧ (100 : ℚ) ≠ 0
    ∧ run sampleRepeatTimer 103 true = run sampleRepeatTimer 103 false
    ∧ (run sampleRepeatTimer 103 true).next_call = some 110
    ∧ (run sampleOneShotTimer 103 true).stopped = true
    ∧ (run sampleOneShotTimer 103 true).timer = none := by
  have h1 := C5_callback_failure_semantics sampleRepeatTimer 103 100 rfl (by norm_num)
  have h2 := C5_callback_failure_semantics sampleOneShotTimer 103 100 rfl (by norm_num)
  refine ⟨rfl, by norm_num, h1.1 true false, ?_, ?_, ?_⟩
  · have := (h1.2.1 rfl).1
    norm_num [sampleRepeatTimer] at this
    simpa [sampleRepeatTimer] using this
  · have := h2.2.2 rfl
    rw [this]
  · have := h2.2.2 rfl
    rw [this]

/-- Claim C6: the derived drive command is `left = velocity - rotation/2`,
`right = velocity + rotation/2` with integer truncation toward zero
(`pytrunc`, which floors nonnegative and ceils negative values), computed
from the latest committed axis pair; concretely, from neutral, committing
velocity 200 then rotation 300 sends `left = 50, right = 350`, and then
committing rotation 0 (velocity still 200) sends `left = 200, right = 200`. -/
theorem C6_motion_composition (app : AppState) (v r : Option ℤ) (q : ℚ)
    (h : app.connected = true) :
    ((set_motion app v r).1.velocity = v.getD app.velocity
      ∧ (set_motion app v r).1.rotation = r.getD app.rotation
      ∧ (set_motion app v r).2.sent
          = [Cmd.driveDirect
              (pytrunc ((v.getD app.velocity : ℚ) - (r.getD app.rotation : ℚ) / 2))
              (pytrunc ((v.getD app.velocity : ℚ) + (r.getD app.rotation : ℚ) / 2))])
    ∧ ((0 ≤ q → pytrunc q = ⌊q⌋) ∧ (q < 0 → pytrunc q = ⌈q⌉))
    ∧ (set_motion (set_motion connectedApp0 (some 200) none).1 none (some 300)).2.sent
        = [Cmd.driveDirect 50 350]
    ∧ (set_motion (set_motion (set_motion connectedApp0 (some 200) none).1
          none (some 300)).1 none (some 0)).2.sent
        = [Cmd.driveDirect 200 200] := by
  refine ⟨by simp [set_motion, h], pytrunc_toward_zero q, ?_, ?_⟩
  · norm_num [set_motion, connectedApp0, pytrunc]
  · norm_num [set_motion, connectedApp0, pytrunc]

/-- Witness for C6 on the connected session with both axes neutral,
committing velocity 200 then rotation 300. -/
theorem C6_motion_composition_witness :
    connectedApp0.connected = true
    ∧ (set_motion (set_motion connectedApp0 (some 200) none).1 none (some 300)).2.sent
        = [Cmd.driveDirect 50 350] :=
  ⟨rfl, (C6_motion_composition connectedApp0 (some 200) (some 300) 0 rfl).2.2.1⟩

/-- Claim C7: `stop()` followed by `start()` begins a new cadence anchored
at the new start time — the first deadline after the restart is the new
start time plus one interval (armed after a delay of `max 0 interval`),
independent of the old cadence's deadlines, because `stop` clears
`next_call`. -/
theorem C7_restart_resets_cadence (s : TimerState) (now' : ℚ) :
    (start (stop s) now' false).next_call = some (now' + s.interval)
    ∧ (start (stop s) now' false).timer = some (now' + max 0 s.interval)
    ∧ (start (stop s) now' false).stopped = false := by
  simp [start, stop]

/-- Claim C8: `stop()` is idempotent — a second `stop()` leaves the state
exactly as the first left it — and `stop()` on a never-started timer
(constructed with `autostart=False`) leaves its state unchanged: stopped,
no pending handle, no deadline, hence no firing is ever armed. -/
theorem C8_stop_idempotent (s : TimerState) (i : ℚ) (r : Bool) (now : ℚ) :
    stop (stop s) = stop s
    ∧ stop (init i r false now) = init i r false now
    ∧ (init i r false now).timer = none
    ∧ (init i r false now).stopped = true
    ∧ (init i r false now).next_call = none := by
  exact ⟨rfl, rfl, rfl, rfl, rfl⟩

/-- Claim C9: a key-up on a motion axis resets only that axis: releasing a
velocity key (UP or DOWN) commits velocity 0 leaving the rotation
unchanged, releasing a rotation key (LEFT or RIGHT) commits rotation 0
leaving the velocity unchanged, and in each case the command sent is
derived from the updated pair. -/
theorem C9_keyrelease_resets_one_axis (app : AppState) (h : app.connected = true) :
    ((handle_keyrelease app Key.UP).1.velocity = 0
      ∧ (handle_keyrelease app Key.UP).1.rotation = app.rotation
      ∧ (handle_keyrelease app Key.UP).2.sent
          = [Cmd.driveDirect (pytrunc ((0 : ℚ) - (app.rotation : ℚ) / 2))
              (pytrunc ((0 : ℚ) + (app.rotation : ℚ) / 2))])
    ∧ handle_keyrelease app Key.DOWN = handle_keyrelease app Key.UP
    ∧ ((handle_keyrelease app Key.LEFT).1.rotation = 0
      ∧ (handle_keyrelease app Key.LEFT).1.velocity = app.velocity
      ∧ (handle_keyrelease app Key.LEFT).2.sent
          = [Cmd.driveDirect (pytrunc ((app.velocity : ℚ) - (0 : ℚ) / 2))
              (pytrunc ((app.velocity : ℚ) + (0 : ℚ) / 2))])
    ∧ handle_keyrelease app Key.RIGHT = handle_keyrelease app Key.LEFT := by
  refine ⟨?_, rfl, ?_, rfl⟩
  · simp [handle_keyrelease, set_motion, h]
  · simp [handle_keyrelease, set_motion, h]

/-- Witness for C9 on a connected session with velocity 200 and rotation
300: releasing UP zeroes only the velocity. -/
theorem C9_keyrelease_resets_one_axis_witness :
    (⟨true, 200, 300, false, none, false⟩ : AppState).connected = true
    ∧ (handle_keyrelease ⟨true, 200, 300, false, none, false⟩ Key.UP).1.velocity = 0
    ∧ (handle_keyrelease ⟨true, 200, 300, false, none, false⟩ Key.UP).1.rotation = 300 := by
  have h := C9_keyrelease_resets_one_axis ⟨true, 200, 300, false, none, false⟩ rfl
  exact ⟨rfl, h.1.1, h.1.2.1⟩

/-- Claim C10: constructed with the default `autostart=True`, the
constructor itself arms the first firing, with deadline equal to the
construction time plus the interval (armed for a delay of
`max 0 interval`) and the timer running; constructed with
`autostart=False`, the timer is exactly the stopped state with no pending
handle and no deadline, so nothing fires until `start()` is called. -/
theorem C10_autostart (i : ℚ) (r : Bool) (now : ℚ) :
    ((init i r true now).next_call = some (now + i)
      ∧ (init i r true now).stopped = false
      ∧ (init i r true now).timer = some (now + max 0 i))
    ∧ init i r false now
        = { interval := i, repeats := r, timer := none,
            stopped := true, next_call := none } := by
  constructor
  · simp [init, start]
  · rfl

end Create2
